import Mathlib

/-!
Shallow embedding of the nvidia_gpu_prometheus_exporter collector
(src/main.go).  The native NVML binding (gonvml) is modelled as an
abstract environment whose reads return `Option` values (`none` for a
failed call).  Prometheus gauge vectors become association lists from
label triples to numeric values; sending a metric on the output channel
becomes appending to a sample list; zerolog calls become log events.
-/

namespace NvidiaExporter

/-- Label values of a device: (minor_number, uuid, name), exactly the
order of the `labels` slice in main.go. -/
abbrev Labels := String × String × String

/-- A labeled gauge vector, as populated by WithLabelValues(...).Set(...):
an association list from label triples to the gauge value. -/
abbrev GaugeVec := List (Labels × Nat)

/-- WithLabelValues(L).Set(v): overwrite the entry for L if present,
otherwise append a fresh child. -/
def setL (g : GaugeVec) (L : Labels) (v : Nat) : GaugeVec :=
  match g with
  | [] => [(L, v)]
  | (M, w) :: rest => if M = L then (L, v) :: rest else (M, w) :: setL rest L v

/-- Lookup of a label triple in a gauge vector. -/
def lookupL (g : GaugeVec) (L : Labels) : Option Nat :=
  match g with
  | [] => none
  | (M, w) :: rest => if M = L then some w else lookupL rest L

/-- One NVML device as seen through the gonvml binding: each accessor
either fails (`none`) or yields its value.  MemoryInfo returns
(total, used); UtilizationRates returns (gpu utilization, memory
utilization). -/
structure Device where
  minorNumber : Option Nat
  uuid : Option String
  name : Option String
  memoryInfo : Option (Nat × Nat)
  utilizationRates : Option (Nat × Nat)
  powerUsage : Option Nat
  temperature : Option Nat
  fanSpeed : Option Nat

/-- The NVML environment during one scrape: the DeviceCount query and
the per-index DeviceHandleByIndex lookup. -/
structure NVML where
  deviceCount : Option Nat
  handle : Nat → Option Device

/-- The four identity lookups, in the order main.go attempts them. -/
inductive IdField
  | handle
  | minorNumber
  | uuid
  | name
deriving DecidableEq, Repr

/-- The five telemetry reads (MemoryInfo yields two gauges). -/
inductive TelField
  | memoryInfo
  | utilizationRates
  | powerUsage
  | temperature
  | fanSpeed
deriving DecidableEq, Repr

/-- Log events emitted by Collect: the DeviceCount error, per-device
identity warnings, and per-device telemetry debug messages. -/
inductive LogEvent
  | errorDeviceCount
  | warnIdentity (field : IdField) (idx : Nat)
  | debugTelemetry (field : TelField) (idx : Nat)
deriving DecidableEq, Repr

/-- A metric sample sent on the collect channel. -/
inductive Sample
  | numDevices (v : Nat)
  | usedMemory (L : Labels) (v : Nat)
  | totalMemory (L : Labels) (v : Nat)
  | dutyCycle (L : Labels) (v : Nat)
  | powerUsage (L : Labels) (v : Nat)
  | temperature (L : Labels) (v : Nat)
  | fanSpeed (L : Labels) (v : Nat)
deriving DecidableEq, Repr

/-- The six labeled gauge vectors of the Collector struct. -/
structure Gauges where
  usedMemory : GaugeVec
  totalMemory : GaugeVec
  dutyCycle : GaugeVec
  powerUsage : GaugeVec
  temperature : GaugeVec
  fanSpeed : GaugeVec
deriving DecidableEq, Repr

/-- All six vectors empty, the state after the Reset() calls. -/
def emptyGauges : Gauges := ⟨[], [], [], [], [], []⟩

/-- Collector state: the num_devices gauge value plus the six vectors. -/
structure CollectorState where
  numDevicesVal : Nat
  gauges : Gauges
deriving DecidableEq, Repr

/-- The MemoryInfo block of the loop body: on success set both the
used-memory and total-memory children for L, on failure log at debug. -/
def applyMemory (i : Nat) (L : Labels) (mi : Option (Nat × Nat)) (g : Gauges) :
    Gauges × List LogEvent :=
  match mi with
  | none => (g, [LogEvent.debugTelemetry TelField.memoryInfo i])
  | some (total, used) =>
      ({ g with usedMemory := setL g.usedMemory L used,
                totalMemory := setL g.totalMemory L total }, [])

/-- The UtilizationRates block: only the first component (GPU
utilization) is kept as the duty-cycle gauge; the second is discarded. -/
def applyDuty (i : Nat) (L : Labels) (ur : Option (Nat × Nat)) (g : Gauges) :
    Gauges × List LogEvent :=
  match ur with
  | none => (g, [LogEvent.debugTelemetry TelField.utilizationRates i])
  | some (dutyCycle, _) =>
      ({ g with dutyCycle := setL g.dutyCycle L dutyCycle }, [])

/-- The PowerUsage block of the loop body. -/
def applyPower (i : Nat) (L : Labels) (pu : Option Nat) (g : Gauges) :
    Gauges × List LogEvent :=
  match pu with
  | none => (g, [LogEvent.debugTelemetry TelField.powerUsage i])
  | some powerUsage =>
      ({ g with powerUsage := setL g.powerUsage L powerUsage }, [])

/-- The Temperature block of the loop body. -/
def applyTemp (i : Nat) (L : Labels) (te : Option Nat) (g : Gauges) :
    Gauges × List LogEvent :=
  match te with
  | none => (g, [LogEvent.debugTelemetry TelField.temperature i])
  | some temperature =>
      ({ g with temperature := setL g.temperature L temperature }, [])

/-- The FanSpeed block of the loop body. -/
def applyFan (i : Nat) (L : Labels) (fs : Option Nat) (g : Gauges) :
    Gauges × List LogEvent :=
  match fs with
  | none => (g, [LogEvent.debugTelemetry TelField.fanSpeed i])
  | some fanSpeed =>
      ({ g with fanSpeed := setL g.fanSpeed L fanSpeed }, [])

/-- One iteration of the device loop in Collect: the four identity
lookups in order (handle, minor number, UUID, name), each failure
logging a warning and skipping the device via `continue`; on identity
success the five telemetry blocks run independently. -/
def processDevice (i : Nat) (h : Option Device) (g : Gauges) :
    Gauges × List LogEvent :=
  match h with
  | none => (g, [LogEvent.warnIdentity IdField.handle i])
  | some dev =>
    match dev.minorNumber with
    | none => (g, [LogEvent.warnIdentity IdField.minorNumber i])
    | some mn =>
      let minor := toString mn
      match dev.uuid with
      | none => (g, [LogEvent.warnIdentity IdField.uuid i])
      | some uuid =>
        match dev.name with
        | none => (g, [LogEvent.warnIdentity IdField.name i])
        | some name =>
          let L : Labels := (minor, uuid, name)
          let r1 := applyMemory i L dev.memoryInfo g
          let r2 := applyDuty i L dev.utilizationRates r1.1
          let r3 := applyPower i L dev.powerUsage r2.1
          let r4 := applyTemp i L dev.temperature r3.1
          let r5 := applyFan i L dev.fanSpeed r4.1
          (r5.1, r1.2 ++ r2.2 ++ r3.2 ++ r4.2 ++ r5.2)

/-- The device loop of Collect over indices 0..n-1, starting from the
reset (empty) gauge vectors. -/
def collectLoop (nv : NVML) (n : Nat) : Gauges × List LogEvent :=
  (List.range n).foldl
    (fun acc i =>
      let r := processDevice i (nv.handle i) acc.1
      (r.1, acc.2 ++ r.2))
    (emptyGauges, [])

/-- GaugeVec.Collect: emit every child of the vector as a sample. -/
def emitGauges (g : Gauges) : List Sample :=
  g.usedMemory.map (fun p => Sample.usedMemory p.1 p.2) ++
  g.totalMemory.map (fun p => Sample.totalMemory p.1 p.2) ++
  g.dutyCycle.map (fun p => Sample.dutyCycle p.1 p.2) ++
  g.powerUsage.map (fun p => Sample.powerUsage p.1 p.2) ++
  g.temperature.map (fun p => Sample.temperature p.1 p.2) ++
  g.fanSpeed.map (fun p => Sample.fanSpeed p.1 p.2)

/-- A metric descriptor: fully-qualified metric family name plus the
variable label keys. -/
structure Desc where
  fqName : String
  labelKeys : List String
deriving DecidableEq, Repr

/-- prometheus.BuildFQName: join the nonempty parts of
(namespace, subsystem, name) with underscores. -/
def buildFQName (ns sub nm : String) : String :=
  if nm = "" then ""
  else if ns ≠ "" ∧ sub ≠ "" then ns ++ "_" ++ sub ++ "_" ++ nm
  else if ns ≠ "" then ns ++ "_" ++ nm
  else if sub ≠ "" then sub ++ "_" ++ nm
  else nm

/-- The `namespace` constant of main.go. -/
def namespaceStr : String := "nvidia_gpu"

/-- The `labels` slice of main.go: the variable label keys of every
gauge vector. -/
def labelKeysList : List String := ["minor_number", "uuid", "name"]

/-- The descriptors built by NewCollector, in struct-field order: the
scalar num_devices gauge (no labels) followed by the six labeled gauge
vectors. -/
def collectorDescs : List Desc :=
  [ ⟨buildFQName namespaceStr "" "num_devices", []⟩,
    ⟨buildFQName namespaceStr "" "memory_used_bytes", labelKeysList⟩,
    ⟨buildFQName namespaceStr "" "memory_total_bytes", labelKeysList⟩,
    ⟨buildFQName namespaceStr "" "duty_cycle", labelKeysList⟩,
    ⟨buildFQName namespaceStr "" "power_usage_milliwatts", labelKeysList⟩,
    ⟨buildFQName namespaceStr "" "temperature_celsius", labelKeysList⟩,
    ⟨buildFQName namespaceStr "" "fanspeed_percent", labelKeysList⟩ ]

/-- Collector.Describe: send the num_devices descriptor then the six
vector descriptors.  It consults no device state and mutates nothing:
the collector state is returned unchanged alongside the static list. -/
def describe (s : CollectorState) : CollectorState × List Desc :=
  (s, collectorDescs)

/-- Collector.Collect: reset all six vectors, query DeviceCount
(failure logs an error and returns with nothing emitted; success sends
the num_devices gauge first), run the device loop, then emit the
contents of the six vectors in declaration order.  Returns the new
collector state, the samples sent on the channel in order, and the log. -/
def collect (nv : NVML) (s : CollectorState) :
    CollectorState × List Sample × List LogEvent :=
  match nv.deviceCount with
  | none => ({ s with gauges := emptyGauges }, [], [LogEvent.errorDeviceCount])
  | some n =>
    let r := collectLoop nv n
    (⟨n, r.1⟩, Sample.numDevices n :: emitGauges r.1, r.2)

/-- The first of the four identity lookups to fail for a device, in the
order main.go attempts them, or `none` when all four succeed. -/
def firstIdentityFailure (h : Option Device) : Option IdField :=
  match h with
  | none => some IdField.handle
  | some d =>
    match d.minorNumber with
    | none => some IdField.minorNumber
    | some _ =>
      match d.uuid with
      | none => some IdField.uuid
      | some _ =>
        match d.name with
        | none => some IdField.name
        | some _ => none

/-- The singleton gauge vector for labels L when the read succeeded,
empty when it failed. -/
def gaugeOf (L : Labels) (o : Option Nat) : GaugeVec :=
  match o with
  | none => []
  | some v => [(L, v)]

theorem numDevices_not_mem_emitGauges (g : Gauges) (v : Nat) :
    Sample.numDevices v ∉ emitGauges g := by
  simp [emitGauges]

theorem mem_gaugeOf (L : Labels) (o : Option Nat) (v : Nat) :
    (L, v) ∈ gaugeOf L o ↔ o = some v := by
  cases o <;> simp [gaugeOf, eq_comm]

theorem processDevice_fields (i : Nat) (d : Device) (mn : Nat)
    (u nm : String) (h1 : d.minorNumber = some mn) (h2 : d.uuid = some u)
    (h3 : d.name = some nm) :
    (processDevice i (some d) emptyGauges).1 =
      ⟨gaugeOf (toString mn, u, nm) (d.memoryInfo.map Prod.snd),
       gaugeOf (toString mn, u, nm) (d.memoryInfo.map Prod.fst),
       gaugeOf (toString mn, u, nm) (d.utilizationRates.map Prod.fst),
       gaugeOf (toString mn, u, nm) d.powerUsage,
       gaugeOf (toString mn, u, nm) d.temperature,
       gaugeOf (toString mn, u, nm) d.fanSpeed⟩ := by
  obtain ⟨mn0, uu0, nm0, mi, ur, pu, te, fs⟩ := d
  simp only [Device.minorNumber] at h1
  simp only [Device.uuid] at h2
  simp only [Device.name] at h3
  subst h1; subst h2; subst h3
  rcases mi with _ | ⟨t, us⟩ <;> rcases ur with _ | ⟨dc, mu⟩ <;>
    rcases pu with _ | p <;> rcases te with _ | q <;> rcases fs with _ | r <;>
    rfl

theorem mem_emitGauges_usedMemory (g : Gauges) (L : Labels) (v : Nat) :
    Sample.usedMemory L v ∈ emitGauges g ↔ (L, v) ∈ g.usedMemory := by
  simp [emitGauges]

theorem mem_emitGauges_totalMemory (g : Gauges) (L : Labels) (v : Nat) :
    Sample.totalMemory L v ∈ emitGauges g ↔ (L, v) ∈ g.totalMemory := by
  simp [emitGauges]

theorem mem_emitGauges_dutyCycle (g : Gauges) (L : Labels) (v : Nat) :
    Sample.dutyCycle L v ∈ emitGauges g ↔ (L, v) ∈ g.dutyCycle := by
  simp [emitGauges]

theorem mem_emitGauges_powerUsage (g : Gauges) (L : Labels) (v : Nat) :
    Sample.powerUsage L v ∈ emitGauges g ↔ (L, v) ∈ g.powerUsage := by
  simp [emitGauges]

theorem mem_emitGauges_temperature (g : Gauges) (L : Labels) (v : Nat) :
    Sample.temperature L v ∈ emitGauges g ↔ (L, v) ∈ g.temperature := by
  simp [emitGauges]

theorem mem_emitGauges_fanSpeed (g : Gauges) (L : Labels) (v : Nat) :
    Sample.fanSpeed L v ∈ emitGauges g ↔ (L, v) ∈ g.fanSpeed := by
  simp [emitGauges]

theorem collect_one_device (d : Device) (s : CollectorState) :
    (collect ⟨some 1, fun _ => some d⟩ s).2.1 =
      Sample.numDevices 1 ::
        emitGauges (processDevice 0 (some d) emptyGauges).1 := by
  simp [collect, collectLoop, List.range_succ]

/-- C2: when the DeviceCount query fails, Collect logs the error and
emits nothing at all — no per-device gauges and no num_devices sample —
and returns without processing any device. -/
theorem collect_count_failure_emits_nothing (nv : NVML) (s : CollectorState)
    (h : nv.deviceCount = none) :
    (collect nv s).2.1 = [] ∧
      (collect nv s).2.2 = [LogEvent.errorDeviceCount] := by
  simp [collect, h]

theorem collect_count_failure_emits_nothing_witness :
    (collect ⟨none, fun _ => none⟩ ⟨0, emptyGauges⟩).2.1 = [] ∧
      (collect ⟨none, fun _ => none⟩ ⟨0, emptyGauges⟩).2.2 =
        [LogEvent.errorDeviceCount] :=
  collect_count_failure_emits_nothing ⟨none, fun _ => none⟩ ⟨0, emptyGauges⟩ rfl

/-- C3: the identity lookups run in the order handle, minor number,
UUID, name; the first failure logs exactly one warning naming that field
and the device index, the gauges are left untouched (so the device
contributes zero samples), and nothing else is read for it. -/
theorem identity_failure_skips_device (i : Nat) (h : Option Device)
    (g : Gauges) (f : IdField) (hf : firstIdentityFailure h = some f) :
    processDevice i h g = (g, [LogEvent.warnIdentity f i]) := by
  match h with
  | none =>
    simp [firstIdentityFailure] at hf
    subst hf; rfl
  | some d =>
    obtain ⟨mn0, uu0, nm0, mi, ur, pu, te, fs⟩ := d
    rcases mn0 with _ | mn
    · simp [firstIdentityFailure] at hf
      subst hf; rfl
    · rcases uu0 with _ | uu
      · simp [firstIdentityFailure] at hf
        subst hf; rfl
      · rcases nm0 with _ | nm
        · simp [firstIdentityFailure] at hf
          subst hf; rfl
        · simp [firstIdentityFailure] at hf

theorem identity_failure_skips_device_witness :
    processDevice 0
        (some ⟨some 3, none, some "Tesla", none, none, none, none, none⟩)
        emptyGauges
      = (emptyGauges, [LogEvent.warnIdentity IdField.uuid 0]) :=
  identity_failure_skips_device 0
    (some ⟨some 3, none, some "Tesla", none, none, none, none, none⟩)
    emptyGauges IdField.uuid rfl

/-- C4: when the DeviceCount query succeeds, the num_devices gauge is
the first sample sent, its value is the raw count, and no other
num_devices sample appears in the scrape. -/
theorem collect_count_success_emits_count_first (nv : NVML)
    (s : CollectorState) (n : Nat) (h : nv.deviceCount = some n) :
    ∃ rest, (collect nv s).2.1 = Sample.numDevices n :: rest ∧
      ∀ v, Sample.numDevices v ∉ rest := by
  refine ⟨emitGauges (collectLoop nv n).1, ?_, fun v => ?_⟩
  · simp [collect, h]
  · exact numDevices_not_mem_emitGauges _ v

theorem collect_count_success_emits_count_first_witness :
    ∃ rest,
      (collect ⟨some 0, fun _ => none⟩ ⟨0, emptyGauges⟩).2.1 =
        Sample.numDevices 0 :: rest ∧
      ∀ v, Sample.numDevices v ∉ rest :=
  collect_count_success_emits_count_first ⟨some 0, fun _ => none⟩
    ⟨0, emptyGauges⟩ 0 rfl

/-- C5: all six gauge vectors are reset before repopulation, so the
entire result of a Collect call — new state, samples and log — is
independent of the gauge contents left over from the previous scrape:
no stale label sets survive. -/
theorem collect_independent_of_previous_gauges (nv : NVML) (v : Nat)
    (g1 g2 : Gauges) :
    collect nv ⟨v, g1⟩ = collect nv ⟨v, g2⟩ := by
  cases h : nv.deviceCount <;> simp [collect, h]

/-- C7: the metric family names and label keys are exactly
nvidia_gpu_num_devices with no labels, plus the six telemetry families
each labeled by minor_number, uuid, name. -/
theorem collector_metric_names :
    collectorDescs =
      [ ⟨"nvidia_gpu_num_devices", []⟩,
        ⟨"nvidia_gpu_memory_used_bytes", ["minor_number", "uuid", "name"]⟩,
        ⟨"nvidia_gpu_memory_total_bytes", ["minor_number", "uuid", "name"]⟩,
        ⟨"nvidia_gpu_duty_cycle", ["minor_number", "uuid", "name"]⟩,
        ⟨"nvidia_gpu_power_usage_milliwatts", ["minor_number", "uuid", "name"]⟩,
        ⟨"nvidia_gpu_temperature_celsius", ["minor_number", "uuid", "name"]⟩,
        ⟨"nvidia_gpu_fanspeed_percent", ["minor_number", "uuid", "name"]⟩ ] := by
  rfl

/-- C9: Describe returns exactly the static seven descriptors (the
num_devices gauge plus the six labeled vectors), consults no device
state, and leaves the collector state unchanged. -/
theorem describe_static_and_pure (s : CollectorState) :
    (describe s).1 = s ∧
      (describe s).2 =
        [ ⟨buildFQName namespaceStr "" "num_devices", []⟩,
          ⟨buildFQName namespaceStr "" "memory_used_bytes", labelKeysList⟩,
          ⟨buildFQName namespaceStr "" "memory_total_bytes", labelKeysList⟩,
          ⟨buildFQName namespaceStr "" "duty_cycle", labelKeysList⟩,
          ⟨buildFQName namespaceStr "" "power_usage_milliwatts", labelKeysList⟩,
          ⟨buildFQName namespaceStr "" "temperature_celsius", labelKeysList⟩,
          ⟨buildFQName namespaceStr "" "fanspeed_percent", labelKeysList⟩ ] ∧
      (describe s).2.length = 7 :=
  ⟨rfl, rfl, rfl⟩

/-- C10: the duty-cycle gauge is set from the first component of the
UtilizationRates result only, and the second component (memory
utilization) is discarded: the outcome of processing a device does not
depend on it. -/
theorem dutyCycle_ignores_memory_utilization (i : Nat) (L : Labels)
    (dc m : Nat) (g : Gauges) (d : Device) (dc0 m1 m2 : Nat) :
    applyDuty i L (some (dc, m)) g =
        ({ g with dutyCycle := setL g.dutyCycle L dc }, []) ∧
      processDevice i (some { d with utilizationRates := some (dc0, m1) }) g =
        processDevice i (some { d with utilizationRates := some (dc0, m2) }) g := by
  refine ⟨rfl, ?_⟩
  obtain ⟨mn0, uu0, nm0, mi, ur, pu, te, fs⟩ := d
  rcases mn0 with _ | mn <;> rcases uu0 with _ | uu <;>
    rcases nm0 with _ | nm <;> rfl

/-- C1: for a device whose four identity lookups succeed, each of the
six telemetry gauges appears in the scrape output exactly when the
corresponding read succeeded, with the value read; each presence
condition mentions only its own read, so the fields are independent. -/
theorem telemetry_fields_independent (d : Device) (s : CollectorState)
    (mn : Nat) (u nm : String) (h1 : d.minorNumber = some mn)
    (h2 : d.uuid = some u) (h3 : d.name = some nm) :
    (∀ v, Sample.usedMemory (toString mn, u, nm) v ∈
        (collect ⟨some 1, fun _ => some d⟩ s).2.1 ↔
      ∃ t, d.memoryInfo = some (t, v)) ∧
    (∀ v, Sample.totalMemory (toString mn, u, nm) v ∈
        (collect ⟨some 1, fun _ => some d⟩ s).2.1 ↔
      ∃ w, d.memoryInfo = some (v, w)) ∧
    (∀ v, Sample.dutyCycle (toString mn, u, nm) v ∈
        (collect ⟨some 1, fun _ => some d⟩ s).2.1 ↔
      ∃ m, d.utilizationRates = some (v, m)) ∧
    (∀ v, Sample.powerUsage (toString mn, u, nm) v ∈
        (collect ⟨some 1, fun _ => some d⟩ s).2.1 ↔
      d.powerUsage = some v) ∧
    (∀ v, Sample.temperature (toString mn, u, nm) v ∈
        (collect ⟨some 1, fun _ => some d⟩ s).2.1 ↔
      d.temperature = some v) ∧
    (∀ v, Sample.fanSpeed (toString mn, u, nm) v ∈
        (collect ⟨some 1, fun _ => some d⟩ s).2.1 ↔
      d.fanSpeed = some v) := by
  rw [collect_one_device, processDevice_fields 0 d mn u nm h1 h2 h3]
  refine ⟨fun v => ?_, fun v => ?_, fun v => ?_, fun v => ?_, fun v => ?_,
    fun v => ?_⟩ <;>
    simp [List.mem_cons, mem_emitGauges_usedMemory,
      mem_emitGauges_totalMemory, mem_emitGauges_dutyCycle,
      mem_emitGauges_powerUsage, mem_emitGauges_temperature,
      mem_emitGauges_fanSpeed, mem_gaugeOf, Option.map_eq_some',
      Prod.exists]

/-- A concrete test device whose temperature read fails while the other
telemetry reads succeed: minor number 0, memory (total 16, used 4), GPU
utilization 7, power 25000 mW, fan 40 percent. -/
def devW : Device :=
  ⟨some 0, some "GPU-abc", some "Tesla", some (16, 4), some (7, 9),
    some 25000, none, some 40⟩

/-- The NVML environment exposing exactly the one test device. -/
def nvW : NVML := ⟨some 1, fun _ => some devW⟩

theorem telemetry_fields_independent_witness :
    Sample.usedMemory (toString 0, "GPU-abc", "Tesla") 4 ∈
        (collect nvW ⟨0, emptyGauges⟩).2.1 ∧
      Sample.totalMemory (toString 0, "GPU-abc", "Tesla") 16 ∈
        (collect nvW ⟨0, emptyGauges⟩).2.1 ∧
      Sample.dutyCycle (toString 0, "GPU-abc", "Tesla") 7 ∈
        (collect nvW ⟨0, emptyGauges⟩).2.1 ∧
      Sample.powerUsage (toString 0, "GPU-abc", "Tesla") 25000 ∈
        (collect nvW ⟨0, emptyGauges⟩).2.1 ∧
      Sample.fanSpeed (toString 0, "GPU-abc", "Tesla") 40 ∈
        (collect nvW ⟨0, emptyGauges⟩).2.1 ∧
      ∀ v, Sample.temperature (toString 0, "GPU-abc", "Tesla") v ∉
        (collect nvW ⟨0, emptyGauges⟩).2.1 := by
  have h := telemetry_fields_independent devW ⟨0, emptyGauges⟩ 0 "GPU-abc"
    "Tesla" rfl rfl rfl
  refine ⟨(h.1 4).mpr ⟨16, rfl⟩, (h.2.1 16).mpr ⟨4, rfl⟩,
    (h.2.2.1 7).mpr ⟨9, rfl⟩, (h.2.2.2.1 25000).mpr rfl,
    (h.2.2.2.2.2 40).mpr rfl, fun v hv => ?_⟩
  have hc := (h.2.2.2.2.1 v).mp hv
  simp [devW] at hc

/-- C6: the used-memory and the total-memory gauges for a device come
from the single MemoryInfo call, so one is present in the scrape output
exactly when the other is, namely when MemoryInfo succeeded. -/
theorem memory_gauges_coupled (d : Device) (s : CollectorState)
    (mn : Nat) (u nm : String) (h1 : d.minorNumber = some mn)
    (h2 : d.uuid = some u) (h3 : d.name = some nm) :
    ((∃ v, Sample.usedMemory (toString mn, u, nm) v ∈
        (collect ⟨some 1, fun _ => some d⟩ s).2.1) ↔
      (∃ v, Sample.totalMemory (toString mn, u, nm) v ∈
        (collect ⟨some 1, fun _ => some d⟩ s).2.1)) ∧
    ((∃ v, Sample.usedMemory (toString mn, u, nm) v ∈
        (collect ⟨some 1, fun _ => some d⟩ s).2.1) ↔
      d.memoryInfo.isSome) := by
  rw [collect_one_device, processDevice_fields 0 d mn u nm h1 h2 h3]
  rcases hmi : d.memoryInfo with _ | ⟨t, us⟩ <;>
    simp [hmi, List.mem_cons, mem_emitGauges_usedMemory,
      mem_emitGauges_totalMemory, mem_gaugeOf]

/-- A concrete test device whose MemoryInfo read fails while identity
succeeds. -/
def devW2 : Device :=
  ⟨some 1, some "GPU-def", some "P100", none, some (5, 6), some 30000,
    some 55, some 20⟩

/-- The NVML environment exposing exactly the second test device. -/
def nvW2 : NVML := ⟨some 1, fun _ => some devW2⟩

theorem memory_gauges_coupled_witness :
    ((∃ v, Sample.usedMemory (toString 1, "GPU-def", "P100") v ∈
        (collect nvW2 ⟨0, emptyGauges⟩).2.1) ↔
      (∃ v, Sample.totalMemory (toString 1, "GPU-def", "P100") v ∈
        (collect nvW2 ⟨0, emptyGauges⟩).2.1)) ∧
    ((∃ v, Sample.usedMemory (toString 1, "GPU-def", "P100") v ∈
        (collect nvW2 ⟨0, emptyGauges⟩).2.1) ↔
      devW2.memoryInfo.isSome) :=
  memory_gauges_coupled devW2 ⟨0, emptyGauges⟩ 1 "GPU-def" "P100" rfl rfl rfl

end NvidiaExporter
